import Mathlib

/-!
Shallow embedding of the booking/payment core of the farm-web equipment
rental server (src/server/routes.ts, the storage layer and the payment
module).  Timestamps are modelled as integers (milliseconds since the Unix
epoch, UTC); a value of type `JSDate` is `none` when the JavaScript date is
invalid (`NaN`).  Database rows become entries of lists inside a `St`
record, and each HTTP handler becomes a pure function from a state and a
request to a response together with the successor state.
-/

namespace FarmWeb

/-- Booking lifecycle states stored in `bookings.status`. -/
inductive BStatus where
  | pending
  | awaiting_payment
  | paid
  | payment_failed
deriving DecidableEq, Repr

/-- A JavaScript `Date`: either a valid timestamp in ms, or invalid (`NaN`). -/
abbrev JSDate : Type := Option Int

/-- The fields of an `equipment` row used by the booking core. -/
structure Equip where
  id : Nat
  ownerId : Nat
  name : String
  dailyRate : Int
  availability : Bool
deriving DecidableEq, Repr

/-- The fields of a `bookings` row used by the booking core. -/
structure Booking where
  id : Nat
  equipmentId : Nat
  userId : Nat
  startDate : Int
  endDate : Int
  totalPrice : Int
  status : BStatus
  razorpayOrderId : Option String
  razorpayPaymentId : Option String
deriving DecidableEq, Repr

/-- The denormalized metadata snapshot stored on a receipt. -/
structure RMeta where
  equipment_name : Option String
  booking_start : Option Int
  booking_end : Option Int
  payment_method : Option String
deriving DecidableEq, Repr

/-- The fields of a `receipts` row used by the booking core. -/
structure Receipt where
  id : Nat
  bookingId : Nat
  userId : Nat
  amount : Int
  status : String
  razorpayPaymentId : Option String
  metadata : RMeta
  generatedAt : Int
deriving DecidableEq, Repr

/-- The database state: equipment, booking and receipt tables plus the set
of existing user ids and the serial counters for fresh row ids. -/
structure St where
  equipments : List Equip
  bookings : List Booking
  receipts : List Receipt
  users : List Nat
  nextBookingId : Nat
  nextReceiptId : Nat
deriving DecidableEq, Repr

/-- Milliseconds per day, the divisor used by the rental-duration and the
day-granularity computations. -/
def msPerDay : Int := 86400000

/-- The UTC day index of a timestamp (floor division, as JavaScript
`setUTCHours` clamps into the enclosing day for any sign). -/
def dayOf (t : Int) : Int := t.fdiv msPerDay

/-- `start.setUTCHours(0,0,0,0)`: first millisecond of the UTC day of `t`. -/
def startOfDayUTC (t : Int) : Int := msPerDay * dayOf t

/-- `end.setUTCHours(23,59,59,999)`: last millisecond of the UTC day of `t`. -/
def endOfDayUTC (t : Int) : Int := msPerDay * dayOf t + (msPerDay - 1)

/-- `Math.ceil (a / b)` for integer `a` and positive integer `b`, the exact
ceiling of the rational quotient. -/
def ceilOfDiv (a b : Int) : Int := -((-a).fdiv b)

/-! ## Storage layer (`DatabaseStorage`)

Each method of `DatabaseStorage` that the booking core calls becomes a pure
function over `St`.  A `SELECT ... WHERE id = ?` is `List.find?`; an
`UPDATE ... WHERE id = ?` maps the updating function over the table and also
returns the updated row (the drizzle `.returning()` value), or `none` when
no row matched, which the source turns into a thrown error. -/

/-- `DatabaseStorage.getEquipment`. -/
def getEquipment (s : St) (id : Nat) : Option Equip :=
  s.equipments.find? (fun e => decide (e.id = id))

/-- `DatabaseStorage.getBooking`. -/
def getBooking (s : St) (id : Nat) : Option Booking :=
  s.bookings.find? (fun b => decide (b.id = id))

/-- `DatabaseStorage.getUser`, reduced to existence of the user row. -/
def userExists (s : St) (id : Nat) : Bool :=
  s.users.contains id

/-- `DatabaseStorage.getReceiptByBookingId`. -/
def getReceiptByBookingId (s : St) (bookingId : Nat) : Option Receipt :=
  s.receipts.find? (fun r => decide (r.bookingId = bookingId))

/-- `DatabaseStorage.updateEquipment(id, { availability })`: sets the flag on
the matching row; `none` models the thrown `Equipment not found`. -/
def updateEquipmentAvailability (s : St) (id : Nat) (b : Bool) : Option St :=
  match getEquipment s id with
  | none => none
  | some _ => some { s with
      equipments := s.equipments.map fun e =>
        if e.id = id then { e with availability := b } else e }

/-- `DatabaseStorage.updateBooking(id, data)` restricted to the fields the
booking core writes (status and the razorpay ids); returns the updated row
and the new state, or `none` for the thrown `Booking not found`. -/
def updateBookingRow (s : St) (id : Nat) (f : Booking → Booking) :
    Option (Booking × St) :=
  match getBooking s id with
  | none => none
  | some b => some (f b, { s with
      bookings := s.bookings.map fun x => if x.id = id then f x else x })

/-- `DatabaseStorage.createBooking`: inserts a row with a fresh serial id. -/
def insertBooking (s : St) (b : Booking) : St :=
  { s with bookings := s.bookings ++ [b], nextBookingId := s.nextBookingId + 1 }

/-- `DatabaseStorage.createReceipt`: unconditionally inserts a new receipt
row with a fresh serial id (there is no lookup for an existing receipt). -/
def createReceipt (s : St) (r : Receipt) : Receipt × St :=
  (r, { s with receipts := s.receipts ++ [r], nextReceiptId := s.nextReceiptId + 1 })

/-- `DatabaseStorage.getBookingsByDateRange`: returns `[]` on invalid date
input; otherwise normalizes the window to `[startOfDay start, endOfDay end]`
in UTC and selects the bookings of the equipment whose start lies in the
window, or whose end lies in the window, or which span the whole window. -/
def getBookingsByDateRange (s : St) (equipmentId : Nat)
    (startDate endDate : JSDate) : List Booking :=
  match startDate, endDate with
  | some sd, some ed =>
    let start := startOfDayUTC sd
    let endT := endOfDayUTC ed
    s.bookings.filter fun b =>
      decide (b.equipmentId = equipmentId) &&
      ((decide (start ≤ b.startDate) && decide (b.startDate ≤ endT)) ||
       (decide (start ≤ b.endDate) && decide (b.endDate ≤ endT)) ||
       (decide (b.startDate ≤ start) && decide (b.endDate ≥ endT)))
  | _, _ => []

/-- `DatabaseStorage.checkEquipmentAvailability`: false for a missing or
unavailable equipment row, otherwise true unless some booking returned by
`getBookingsByDateRange` has status `paid` or `awaiting_payment`. -/
def checkEquipmentAvailability (s : St) (equipmentId : Nat)
    (startDate endDate : JSDate) : Bool :=
  match getEquipment s equipmentId with
  | none => false
  | some e =>
    if !e.availability then false
    else
      let existingBookings := getBookingsByDateRange s equipmentId startDate endDate
      let hasConflictingBooking := existingBookings.any fun b =>
        decide (b.status = BStatus.paid) || decide (b.status = BStatus.awaiting_payment)
      !hasConflictingBooking

/-! ## Payment module (`server/payment.ts`)

The HMAC-SHA256 primitive is kept abstract: every operation that recomputes
a signature is parameterized by a function `hmac : String → String → String`
taking the secret key and the message text.  The Razorpay network calls are
modelled by explicit environment inputs: `gatewayOk` says whether order
creation succeeds, and `fetchPayment` maps a payment id to the authoritative
payment record (or `none` when the fetch fails). -/

/-- The fields of a Razorpay payment record used by `generateReceipt`. -/
structure PayRecord where
  status : String
  amount : Int
  method : String
  created_at : Int
deriving DecidableEq, Repr

/-- `createPaymentSession`: throws (`none`) for a non-positive amount or when
the gateway order creation fails; otherwise returns the gateway order id. -/
def createPaymentSession (gatewayOk : Bool) (orderId : String) (amount : Int) :
    Option String :=
  if amount ≤ 0 then none
  else if gatewayOk then some orderId
  else none

/-- `verifyPaymentSignature`: recomputes the HMAC of `orderId + "|" +
paymentId` under the key secret and compares it with the received string. -/
def verifyPaymentSignature (hmac : String → String → String)
    (secret orderId paymentId signature : String) : Bool :=
  decide (hmac secret (orderId ++ "|" ++ paymentId) = signature)

/-- `generateReceipt` (payment module): fetches the payment from the gateway,
loads booking, equipment and user, and inserts a receipt row whose amount and
status are taken from the fetched payment; `none` models any thrown error. -/
def generateReceipt (s : St) (fetchPayment : String → Option PayRecord)
    (bookingId : Nat) (paymentId : String) (now : Int) : Option (Receipt × St) :=
  match fetchPayment paymentId with
  | none => none
  | some payment =>
    match getBooking s bookingId with
    | none => none
    | some booking =>
      match getEquipment s booking.equipmentId with
      | none => none
      | some equipment =>
        if !userExists s booking.userId then none
        else
          some (createReceipt s {
            id := s.nextReceiptId
            bookingId := bookingId
            userId := booking.userId
            amount := payment.amount
            status := payment.status
            razorpayPaymentId := some paymentId
            metadata := {
              equipment_name := some equipment.name
              booking_start := some booking.startDate
              booking_end := some booking.endDate
              payment_method := some payment.method }
            generatedAt := now })

/-! ## Route handlers (`server/routes.ts`)

Each handler is one atomic step from a request to a response and a successor
state.  The authenticated user id is an input (authentication itself is out
of scope). -/

/-- The body of `POST /api/bookings` after merging in the authenticated user
id; the dates are the results of `z.coerce.date`. -/
structure BookingReq where
  equipmentId : Nat
  userId : Nat
  startDate : JSDate
  endDate : JSDate
deriving DecidableEq, Repr

/-- Responses of `POST /api/bookings`. -/
inductive CreateResult where
  | validationError
  | equipmentNotFound
  | notAvailable
  | datesConflict
  | paymentSetupFailed
  | serverError
  | created (b : Booking)
deriving DecidableEq, Repr

/-- `true` exactly on the 201 success response. -/
def CreateResult.isCreated : CreateResult → Bool
  | .created _ => true
  | _ => false

/-- The `catch (paymentError)` block of `POST /api/bookings`: revert the
equipment to `availability=true`, mark the booking `payment_failed`, and
answer 400 `Payment order creation failed`; a failure of either write
escapes to the outer catch (500, `serverError`). -/
def bookingPaymentCatch (s : St) (equipmentId bookingId : Nat) :
    CreateResult × St :=
  match updateEquipmentAvailability s equipmentId true with
  | none => (.serverError, s)
  | some sA =>
    match updateBookingRow sA bookingId
        (fun b => { b with status := .payment_failed }) with
    | none => (.serverError, sA)
    | some (_, sB) => (.paymentSetupFailed, sB)

/-- `POST /api/bookings`: schema validation, equipment lookup, the
availability flag check, price computation, the date-range availability
re-check, row insertion, the equipment lock, gateway order creation, and the
transition to `awaiting_payment` — with the revert path on any failure after
the lock.  `gatewayOk` and `orderId` are the gateway environment. -/
def createBookingOp (s : St) (req : BookingReq) (gatewayOk : Bool)
    (orderId : String) : CreateResult × St :=
  match req.startDate, req.endDate with
  | some sd, some ed =>
    match getEquipment s req.equipmentId with
    | none => (.equipmentNotFound, s)
    | some equipment =>
      if !equipment.availability then (.notAvailable, s)
      else
        let totalDays := max 1 (ceilOfDiv (ed - sd) msPerDay + 1)
        let totalAmount := equipment.dailyRate * totalDays
        if !checkEquipmentAvailability s req.equipmentId (some sd) (some ed) then
          (.datesConflict, s)
        else
          let booking : Booking := {
            id := s.nextBookingId
            equipmentId := req.equipmentId
            userId := req.userId
            startDate := sd
            endDate := ed
            totalPrice := totalAmount
            status := .pending
            razorpayOrderId := none
            razorpayPaymentId := none }
          let s1 := insertBooking s booking
          match updateEquipmentAvailability s1 req.equipmentId false with
          | none => bookingPaymentCatch s1 req.equipmentId booking.id
          | some s2 =>
            match createPaymentSession gatewayOk orderId (totalAmount * 100) with
            | none => bookingPaymentCatch s2 req.equipmentId booking.id
            | some oid =>
              match updateBookingRow s2 booking.id (fun b =>
                  { b with status := .awaiting_payment,
                           razorpayOrderId := some oid }) with
              | none => bookingPaymentCatch s2 req.equipmentId booking.id
              | some (updatedBooking, s3) => (.created updatedBooking, s3)
  | _, _ => (.validationError, s)

/-- The body of `POST /api/bookings/verify-payment`. -/
structure VerifyReq where
  bookingId : Nat
  orderId : String
  paymentId : String
  signature : String
deriving DecidableEq, Repr

/-- Responses of `POST /api/bookings/verify-payment`. -/
inductive VerifyResult where
  | missingFields
  | bookingNotFound
  | equipmentNotFound
  | invalidSignature
  | serverError
  | verified (b : Booking) (r : Receipt)
deriving DecidableEq, Repr

/-- `POST /api/bookings/verify-payment`: field presence (JavaScript
truthiness, so a zero id or an empty string counts as missing), booking and
equipment lookup, the signature check, then the transition to `paid` and the
unconditional creation of a fresh receipt row. -/
def verifyPaymentOp (hmac : String → String → String) (secret : String)
    (s : St) (req : VerifyReq) (now : Int) : VerifyResult × St :=
  if req.bookingId = 0 ∨ req.orderId = "" ∨ req.paymentId = "" ∨ req.signature = "" then
    (.missingFields, s)
  else
    match getBooking s req.bookingId with
    | none => (.bookingNotFound, s)
    | some booking =>
      match getEquipment s booking.equipmentId with
      | none => (.equipmentNotFound, s)
      | some equipment =>
        if !verifyPaymentSignature hmac secret req.orderId req.paymentId req.signature then
          (.invalidSignature, s)
        else
          match updateBookingRow s req.bookingId (fun b =>
              { b with status := .paid,
                       razorpayPaymentId := some req.paymentId }) with
          | none => (.serverError, s)
          | some (updatedBooking, s1) =>
            let (receipt, s2) := createReceipt s1 {
              id := s1.nextReceiptId
              bookingId := booking.id
              userId := booking.userId
              amount := booking.totalPrice * 100
              status := "paid"
              razorpayPaymentId := some req.paymentId
              metadata := {
                equipment_name := some equipment.name
                booking_start := some booking.startDate
                booking_end := some booking.endDate
                payment_method := some "razorpay" }
              generatedAt := now }
            (.verified updatedBooking receipt, s2)

/-! ## Webhook endpoint (`POST /api/webhooks/razorpay`)

The route uses the local `handleWebhookEvent` defined at the bottom of
`routes.ts` (the payment-module version is not imported there).  The raw
request body is modelled as its text (for the HMAC check) together with the
result of `JSON.parse` projected to the single path the handler reads,
`event.payload.payment`: the outer `Option` is `none` when parsing throws,
the inner one when the `payload.payment` chain is absent (a `TypeError`). -/

/-- The `event.payload.payment` object as read by `handleWebhookEvent` in
`routes.ts`: its `status`, its `order_id` (used directly as the booking id)
and its `id` (the payment id). -/
structure PaymentPayload where
  status : String
  order_id : Nat
  id : String
deriving DecidableEq, Repr

/-- The raw webhook body. -/
structure RawBody where
  text : String
  parsed : Option (Option PaymentPayload)
deriving DecidableEq, Repr

/-- What `handleWebhookEvent` maps an event to. -/
inductive WebhookOutcome where
  | success (bookingId : Nat) (paymentId : String)
  | failed (bookingId : Nat)
deriving DecidableEq, Repr

/-- `handleWebhookEvent` (the placeholder in `routes.ts`): reads
`event.payload.payment.status` — throwing (`none`) when the chain is absent
— and maps `captured`/`failed` to an outcome keyed by `order_id`, returning
`null` (`some none`) for any other status. -/
def handleWebhookEvent (payment : Option PaymentPayload) :
    Option (Option WebhookOutcome) :=
  match payment with
  | none => none
  | some p =>
    if p.status = "captured" then some (some (.success p.order_id p.id))
    else if p.status = "failed" then some (some (.failed p.order_id))
    else some none

/-- Responses of `POST /api/webhooks/razorpay`.  `received` is the
`{received: true}` acknowledgement; `webhookError` is the 400 `Webhook
Error` answer produced by the catch block. -/
inductive WebhookResp where
  | missingSignature
  | invalidSignature
  | received
  | webhookError
deriving DecidableEq, Repr

/-- The body of the webhook route after the signature gate: parse the raw
body, map the event, and apply the settlement updates; any thrown error
(parse failure, absent payload, missing booking or equipment row, receipt
generation failure) falls into the catch block, after any updates already
performed. -/
def webhookProcess (fetchPayment : String → Option PayRecord) (raw : RawBody)
    (s : St) (now : Int) : WebhookResp × St :=
  match raw.parsed with
  | none => (.webhookError, s)
  | some payment =>
    match handleWebhookEvent payment with
    | none => (.webhookError, s)
    | some none => (.received, s)
    | some (some (.success bookingId paymentId)) =>
      match updateBookingRow s bookingId (fun b =>
          { b with status := .paid, razorpayPaymentId := some paymentId }) with
      | none => (.webhookError, s)
      | some (booking, s1) =>
        match updateEquipmentAvailability s1 booking.equipmentId false with
        | none => (.webhookError, s1)
        | some s2 =>
          match generateReceipt s2 fetchPayment bookingId paymentId now with
          | none => (.webhookError, s2)
          | some (_, s3) => (.received, s3)
    | some (some (.failed bookingId)) =>
      match updateBookingRow s bookingId (fun b =>
          { b with status := .payment_failed }) with
      | none => (.webhookError, s)
      | some (booking, s1) =>
        match updateEquipmentAvailability s1 booking.equipmentId true with
        | none => (.webhookError, s1)
        | some s2 => (.received, s2)

/-- `POST /api/webhooks/razorpay`: when a webhook secret is configured the
signature header must be present and match the HMAC of the raw body text;
then the event is processed by `webhookProcess`. -/
def webhookOp (hmac : String → String → String) (webhookSecret : Option String)
    (sigHeader : Option String) (raw : RawBody)
    (fetchPayment : String → Option PayRecord) (s : St) (now : Int) :
    WebhookResp × St :=
  match webhookSecret with
  | some secret =>
    match sigHeader with
    | none => (.missingSignature, s)
    | some sig =>
      if !(decide (hmac secret raw.text = sig)) then (.invalidSignature, s)
      else webhookProcess fetchPayment raw s now
  | none => webhookProcess fetchPayment raw s now

/-! ## Per-booking receipt endpoint (`GET /api/bookings/:id/receipt`) -/

/-- Responses of `GET /api/bookings/:id/receipt`. -/
inductive ReceiptLookupResult where
  | bookingNotFound
  | receiptNotFound
  | notAuthorized
  | found (r : Receipt)
deriving DecidableEq, Repr

/-- `GET /api/bookings/:id/receipt`: look the booking up, then its receipt;
with no stored receipt, a `paid` booking gets a brand-new receipt created
and returned (amount `totalPrice * 100`, freshly snapshotted metadata and
generation time), any other status answers 404; an existing receipt is
returned after the ownership check. -/
def getBookingReceiptOp (s : St) (requesterId bookingId : Nat) (now : Int) :
    ReceiptLookupResult × St :=
  match getBooking s bookingId with
  | none => (.bookingNotFound, s)
  | some booking =>
    match getReceiptByBookingId s bookingId with
    | none =>
      if booking.status = .paid then
        let (newReceipt, s1) := createReceipt s {
          id := s.nextReceiptId
          bookingId := booking.id
          userId := booking.userId
          amount := booking.totalPrice * 100
          status := "paid"
          razorpayPaymentId := booking.razorpayPaymentId
          metadata := {
            equipment_name := (getEquipment s booking.equipmentId).map Equip.name
            booking_start := some booking.startDate
            booking_end := some booking.endDate
            payment_method := some "razorpay" }
          generatedAt := now }
        (.found newReceipt, s1)
      else (.receiptNotFound, s)
    | some receipt =>
      if !(decide (receipt.userId = requesterId)) then (.notAuthorized, s)
      else (.found receipt, s)

/-! ## Operation traces

A trace interleaves the core operations from an initial state; the gateway
environment (HMAC primitive, secrets, payment fetch) is fixed across the
trace and the per-request inputs ride on the operation. -/

/-- One core operation together with its request-level inputs. -/
inductive Op where
  | create (req : BookingReq) (gatewayOk : Bool) (orderId : String)
  | verify (req : VerifyReq) (now : Int)
  | webhook (sigHeader : Option String) (raw : RawBody) (now : Int)
  | receiptLookup (requesterId bookingId : Nat) (now : Int)
deriving Repr

/-- The fixed environment of a trace. -/
structure Env where
  hmac : String → String → String
  keySecret : String
  webhookSecret : Option String
  fetchPayment : String → Option PayRecord

/-- The state after one operation. -/
def stepOp (env : Env) (s : St) : Op → St
  | .create req g o => (createBookingOp s req g o).2
  | .verify req now => (verifyPaymentOp env.hmac env.keySecret s req now).2
  | .webhook sig raw now =>
    (webhookOp env.hmac env.webhookSecret sig raw env.fetchPayment s now).2
  | .receiptLookup uid bid now => (getBookingReceiptOp s uid bid now).2

/-- The state after a sequence of operations. -/
def execTrace (env : Env) (s : St) (ops : List Op) : St :=
  ops.foldl (stepOp env) s

/-- A booking that blocks the dates of other bookings. -/
def isActive (b : Booking) : Bool :=
  decide (b.status = BStatus.paid) || decide (b.status = BStatus.awaiting_payment)

/-- Two inclusive date ranges overlap at day granularity. -/
def rangesOverlapDay (b1 b2 : Booking) : Bool :=
  decide (dayOf b1.startDate ≤ dayOf b2.endDate) &&
  decide (dayOf b2.startDate ≤ dayOf b1.endDate)

/-- The core safety invariant: no two distinct bookings of the same
equipment with status `paid` or `awaiting_payment` have overlapping date
ranges. -/
def noDoubleBooking (s : St) : Prop :=
  ∀ b1 ∈ s.bookings, ∀ b2 ∈ s.bookings,
    b1.id ≠ b2.id → b1.equipmentId = b2.equipmentId →
    isActive b1 = true → isActive b2 = true → rangesOverlapDay b1 b2 = false

instance (s : St) : Decidable (noDoubleBooking s) := by
  unfold noDoubleBooking
  infer_instance

/-! ## Spec-side definitions

These definitions follow the specification's words (not the source) and are
compared against the embedded code in refinement-style claims. -/

/-- Modelled from the spec: `totalDays = ceil((end-start)/1day) + 1`,
minimum 1. -/
def spec_totalDays (startMs endMs : Int) : Int :=
  max 1 (ceilOfDiv (endMs - startMs) msPerDay + 1)

/-- Modelled from the spec: two inclusive ranges `[a1,a2]` and `[b1,b2]`
overlap iff `a1 ≤ b2 AND b1 ≤ a2`, after day-granularity normalization
(start of day for range starts, end of day for range ends). -/
def specOverlap (b : Booking) (a1 a2 : Int) : Prop :=
  startOfDayUTC b.startDate ≤ endOfDayUTC a2 ∧
  startOfDayUTC a1 ≤ endOfDayUTC b.endDate

/-- Modelled from the spec: the availability contract — the equipment exists
with `availability=true` and no booking for it with status `paid` or
`awaiting_payment` has a date range overlapping `[a1,a2]`. -/
def spec_isAvailable (s : St) (equipmentId : Nat) (a1 a2 : Int) : Prop :=
  ∃ e, getEquipment s equipmentId = some e ∧ e.availability = true ∧
    ∀ b ∈ s.bookings, b.equipmentId = equipmentId →
      (b.status = BStatus.paid ∨ b.status = BStatus.awaiting_payment) →
      ¬ specOverlap b a1 a2

/-- `true` exactly on the success response of payment verification. -/
def VerifyResult.isVerified : VerifyResult → Bool
  | .verified _ _ => true
  | _ => false

/-! ## Concrete scenario

A fixed environment and initial state used to evaluate the operations on
concrete inputs: one equipment unit (id 1, daily rate 500), two users, no
bookings, no receipts.  `toyHmac` is one concrete instantiation of the
abstract HMAC primitive. -/

/-- A concrete keyed-hash instantiation for closed evaluations. -/
def toyHmac (key text : String) : String := key ++ ":" ++ text

/-- Day `n` at midnight UTC, in milliseconds. -/
def dms (n : Int) : Int := n * 86400000

/-- Concrete trace environment: no webhook secret configured, every payment
fetch succeeds with a captured UPI payment of 150000 paise. -/
def env0 : Env := {
  hmac := toyHmac
  keySecret := "sec"
  webhookSecret := none
  fetchPayment := fun _ =>
    some { status := "captured", amount := 150000, method := "upi", created_at := 0 } }

/-- Concrete initial state. -/
def s0 : St := {
  equipments := [{ id := 1, ownerId := 9, name := "Tractor", dailyRate := 500,
                   availability := true }]
  bookings := []
  receipts := []
  users := [1, 2]
  nextBookingId := 1
  nextReceiptId := 1 }

/-- The request of user 1 booking equipment 1 for days 10–12. -/
def reqDays10to12 : BookingReq :=
  { equipmentId := 1, userId := 1, startDate := some (dms 10),
    endDate := some (dms 12) }

/-- Booking request: user 1 books equipment 1 for days 10–12. -/
def opCreate1 : Op := .create reqDays10to12 true "order_1"

/-- A `payment.failed` webhook event whose payment carries booking id 1. -/
def opFail1 : Op :=
  .webhook none
    { text := "t",
      parsed := some (some { status := "failed", order_id := 1, id := "pay_1" }) } 0

/-- Booking request: user 2 books equipment 1 for the same days 10–12. -/
def opCreate2 : Op :=
  .create { equipmentId := 1, userId := 2, startDate := some (dms 10),
            endDate := some (dms 12) } true "order_2"

/-- A redelivered `payment.captured` webhook event for booking 1. -/
def opCapture1 : Op :=
  .webhook none
    { text := "t",
      parsed := some (some { status := "captured", order_id := 1, id := "pay_1" }) } 0

/-- A valid synchronous verification request for booking 1 under `toyHmac`. -/
def vreq1 : VerifyReq := {
  bookingId := 1
  orderId := "order_1"
  paymentId := "pay_1"
  signature := toyHmac "sec" "order_1|pay_1" }

/-- The verification of booking 1, as a trace operation. -/
def opVerify1 : Op := .verify vreq1 5

/-- A booking request whose end date precedes its start date. -/
def badDatesReq : BookingReq :=
  { equipmentId := 1, userId := 1, startDate := some (dms 5), endDate := some (dms 3) }

/-- A correctly signed webhook body whose JSON parses but lacks the
`payload.payment` object. -/
def rawNoPayment : RawBody := { text := "t", parsed := some none }

/-- A webhook body carrying an event with an unrecognized payment status. -/
def rawUnrecognized : RawBody :=
  { text := "t", parsed := some (some { status := "authorized", order_id := 1, id := "p" }) }

/-- A gateway environment whose payment fetch always fails. -/
def fpNone : String → Option PayRecord := fun _ => none

/-- A paid booking of equipment 1 for days 10–12 at total price 1500. -/
def bookingPaid : Booking := {
  id := 1
  equipmentId := 1
  userId := 1
  startDate := dms 10
  endDate := dms 12
  totalPrice := 1500
  status := .paid
  razorpayOrderId := some "order_1"
  razorpayPaymentId := some "pay_1" }

/-- A state holding `bookingPaid` and no receipt for it. -/
def sPaid : St := { s0 with bookings := [bookingPaid], nextBookingId := 2 }

/-- The booking request of the spec's pricing scenario: equipment 1
(daily rate 500), 2024-06-01 through 2024-06-03 in epoch milliseconds. -/
def scenarioReq : BookingReq :=
  { equipmentId := 1, userId := 1, startDate := some 1717200000000,
    endDate := some 1717372800000 }

/-! # Theorems -/

/-- **C1** (the code violates the claim; evaluation at the failing trace).
After the operation sequence: create booking 1 for equipment 1 on days
10–12; receive a `failed` webhook for it (which releases the equipment);
create booking 2 for the same equipment and days; then receive a redelivered
`captured` webhook for booking 1 — booking 1 is resurrected to `paid` while
booking 2 is `awaiting_payment`, so two bookings with status in
`{paid, awaiting_payment}` for the same equipment have overlapping date
ranges, contradicting the claimed invariant. -/
theorem C1_webhook_resurrection_breaks_no_double_booking :
    ¬ noDoubleBooking (execTrace env0 s0 [opCreate1, opFail1, opCreate2, opCapture1]) := by
  decide

/-- **C2** (the code violates the claim; evaluation at the failing input).
Verifying booking 1 twice with the same valid arguments leaves two receipt
rows for booking 1 in the store, and the second call returns a different
receipt from the first instead of the existing one. -/
theorem C2_second_verification_creates_second_receipt :
    ((execTrace env0 s0 [opCreate1, opVerify1, opVerify1]).receipts.map
        (fun r => r.bookingId) = [1, 1]) ∧
    (verifyPaymentOp toyHmac "sec" (execTrace env0 s0 [opCreate1, opVerify1]) vreq1 6).1 ≠
      (verifyPaymentOp toyHmac "sec" (execTrace env0 s0 [opCreate1]) vreq1 5).1 := by
  decide

/-- **C3** (the code violates the claim; evaluation at the failing input).
After booking 1 is created and marked `paid` by synchronous verification, a
late `payment.failed` webhook for it is not ignored: the booking's stored
status regresses to `payment_failed` and the equipment's availability flag
is set back to `true`, and the webhook is acknowledged. -/
theorem C3_failed_webhook_regresses_paid_booking :
    ((getBooking (execTrace env0 s0 [opCreate1, opVerify1, opFail1]) 1).map Booking.status
        = some BStatus.payment_failed) ∧
    ((getEquipment (execTrace env0 s0 [opCreate1, opVerify1, opFail1]) 1).map Equip.availability
        = some true) := by
  decide

/-- **C4 counterexample**: the availability check does not return `false`
for invalid date input — with an existing, available equipment row and an
invalid start date it returns `true`, because the date-range query returns
the empty list on invalid dates and hence reports no conflict. -/
theorem C4_counterexample_invalid_date_input :
    (getEquipment s0 1).map Equip.availability = some true ∧
    checkEquipmentAvailability s0 1 none (some (dms 3)) = true := by
  decide

/-- **C6 counterexample**: a booking request with `endDate < startDate` is
not rejected by validation — it passes the schema, and the operation creates
a booking row (the claim requires a synchronous validation error with no
state mutated). -/
theorem C6_counterexample_end_before_start :
    (createBookingOp s0 badDatesReq true "o").1.isCreated = true ∧
    ((createBookingOp s0 badDatesReq true "o").2).bookings.length = 1 := by
  decide

/-- **C9 counterexample**: a correctly signed webhook whose event parses but
lacks the `payload.payment` object is answered with the 400 `Webhook Error`
response produced by the catch block, not with `{received: true}` — so
internal processing errors on malformed events are surfaced to the gateway,
contradicting the claim that only signature failures are rejected. -/
theorem C9_counterexample_malformed_event_not_acknowledged :
    webhookOp toyHmac (some "wh") (some (toyHmac "wh" "t"))
      rawNoPayment (fun _ => none) s0 0 = (.webhookError, s0) := by
  decide

/-! ## Day-granularity arithmetic -/

/-- Floor division by the (positive) day length agrees with Euclidean
division. -/
theorem fdiv_day (t : Int) : t.fdiv 86400000 = t / 86400000 :=
  Int.fdiv_eq_ediv t (by norm_num)

/-- The three-disjunct window test used by `getBookingsByDateRange` agrees
with the spec's inclusive overlap test `a1 ≤ b2 ∧ b1 ≤ a2` after
day-granularity normalization, for any booking range with `b1 ≤ b2` and any
query window whose start day is not after its end day. -/
theorem window_test_iff (b1 b2 a1 a2 : Int) (hb : b1 ≤ b2)
    (hq : dayOf a1 ≤ dayOf a2) :
    (((startOfDayUTC a1 ≤ b1 ∧ b1 ≤ endOfDayUTC a2) ∨
      (startOfDayUTC a1 ≤ b2 ∧ b2 ≤ endOfDayUTC a2)) ∨
     (b1 ≤ startOfDayUTC a1 ∧ endOfDayUTC a2 ≤ b2)) ↔
    (startOfDayUTC b1 ≤ endOfDayUTC a2 ∧ startOfDayUTC a1 ≤ endOfDayUTC b2) := by
  unfold startOfDayUTC endOfDayUTC dayOf msPerDay at *
  simp only [fdiv_day] at *
  omega

/-- **C4 amended**: for valid date inputs whose start day is not after their
end day, and states whose stored bookings for the equipment have
`startDate ≤ endDate`, the availability check returns `true` iff the
equipment exists with `availability = true` and no booking for it with
status `paid` or `awaiting_payment` overlaps `[a1, a2]` under the
inclusive-interval, day-granularity semantics; for nonexistent equipment it
returns `false`.  (For invalid date input it does not return `false`: see
the counterexample — the conflict query is empty, so the result is the bare
availability flag.) -/
theorem C4_availability_check_matches_spec (s : St) (equipmentId : Nat)
    (a1 a2 : Int)
    (hwf : ∀ b ∈ s.bookings, b.equipmentId = equipmentId → b.startDate ≤ b.endDate)
    (hq : dayOf a1 ≤ dayOf a2) :
    checkEquipmentAvailability s equipmentId (some a1) (some a2) = true ↔
      spec_isAvailable s equipmentId a1 a2 := by
  unfold checkEquipmentAvailability spec_isAvailable getBookingsByDateRange
  cases heq : getEquipment s equipmentId with
  | none => simp
  | some e =>
    by_cases hav : e.availability
    · simp only [hav, Bool.not_true, Bool.false_eq_true, if_false, Bool.not_eq_true',
        Bool.not_eq_false, List.any_filter, List.any_eq_false, Option.some.injEq,
        Bool.and_eq_true, Bool.or_eq_true, decide_eq_true_eq, ge_iff_le]
      constructor
      · intro h
        refine ⟨e, rfl, hav, ?_⟩
        intro b hb hbeq hbst hov
        exact (h b hb) ⟨⟨hbeq,
          (window_test_iff b.startDate b.endDate a1 a2 (hwf b hb hbeq) hq).mpr hov⟩, hbst⟩
      · rintro ⟨e', he', hav', hspec⟩
        intro b hb hcode
        obtain ⟨⟨hbeq, hwin⟩, hst⟩ := hcode
        exact hspec b hb hbeq hst
          ((window_test_iff b.startDate b.endDate a1 a2 (hwf b hb hbeq) hq).mp hwin)
    · simp [hav]

/-- **C4 witness**: the amended equivalence instantiated at the concrete
state `s0` and the window days 1–2, with both hypotheses discharged. -/
theorem C4_availability_check_matches_spec_witness :
    (∀ b ∈ s0.bookings, b.equipmentId = 1 → b.startDate ≤ b.endDate) ∧
    dayOf (dms 1) ≤ dayOf (dms 2) ∧
    (checkEquipmentAvailability s0 1 (some (dms 1)) (some (dms 2)) = true ↔
      spec_isAvailable s0 1 (dms 1) (dms 2)) :=
  ⟨by decide, by decide,
    C4_availability_check_matches_spec s0 1 (dms 1) (dms 2) (by decide) (by decide)⟩

/-- **C6 amended**: the operation performs no date-ordering or not-in-past
validation (see the counterexample); the only input validation is the
schema's: a request whose dates fail coercion is rejected synchronously
with a validation error and the state is not mutated. -/
theorem C6_schema_failure_rejected_without_mutation (s : St) (req : BookingReq)
    (g : Bool) (o : String) (h : req.startDate = none ∨ req.endDate = none) :
    createBookingOp s req g o = (.validationError, s) := by
  unfold createBookingOp
  rcases h with h | h
  · rw [h]
  · rw [h]
    cases req.startDate <;> rfl

/-- **C6 witness**: the amended claim instantiated at a request with an
uncoercible start date. -/
theorem C6_schema_failure_rejected_without_mutation_witness :
    ((none : JSDate) = none ∨ (some (dms 3) : JSDate) = none) ∧
    createBookingOp s0
      { equipmentId := 1, userId := 1, startDate := none, endDate := some (dms 3) }
      true "o" = (.validationError, s0) :=
  ⟨Or.inl rfl, C6_schema_failure_rejected_without_mutation s0
    { equipmentId := 1, userId := 1, startDate := none, endDate := some (dms 3) }
    true "o" (Or.inl rfl)⟩

/-- **C8**: whenever the received signature differs from the HMAC of
`orderId + "|" + paymentId` under the secret key, `verifyPaymentSignature`
returns `false`; and the payment-verification operation with such a request
leaves the state unchanged (the booking keeps its prior status, no receipt
row is created) and does not answer with the success response. -/
theorem C8_invalid_signature_rejected_without_mutation
    (hmac : String → String → String) (secret : String) (s : St)
    (req : VerifyReq) (now : Int)
    (h : hmac secret (req.orderId ++ "|" ++ req.paymentId) ≠ req.signature) :
    verifyPaymentSignature hmac secret req.orderId req.paymentId req.signature = false ∧
    (verifyPaymentOp hmac secret s req now).2 = s ∧
    (verifyPaymentOp hmac secret s req now).1.isVerified = false := by
  have hsig : verifyPaymentSignature hmac secret req.orderId req.paymentId req.signature
      = false := by
    unfold verifyPaymentSignature
    exact decide_eq_false h
  refine ⟨hsig, ?_⟩
  unfold verifyPaymentOp
  by_cases hmiss : req.bookingId = 0 ∨ req.orderId = "" ∨ req.paymentId = "" ∨
      req.signature = ""
  · rw [if_pos hmiss]
    exact ⟨rfl, rfl⟩
  · rw [if_neg hmiss]
    cases hb : getBooking s req.bookingId with
    | none => exact ⟨rfl, rfl⟩
    | some booking =>
      dsimp only
      cases he : getEquipment s booking.equipmentId with
      | none => exact ⟨rfl, rfl⟩
      | some equipment =>
        dsimp only
        rw [hsig]
        exact ⟨rfl, rfl⟩

/-! ## Storage-layer lemmas -/

/-- `updateEquipmentAvailability` on a present row: the explicit successor
state. -/
theorem updAvail_of_get (s : St) (id : Nat) (bo : Bool) (e : Equip)
    (h : getEquipment s id = some e) :
    updateEquipmentAvailability s id bo = some { s with
      equipments := s.equipments.map fun x =>
        if x.id = id then { x with availability := bo } else x } := by
  unfold updateEquipmentAvailability
  rw [h]

/-- `updateBookingRow` on a present row: the explicit successor state and
the returned row. -/
theorem updRow_of_get (s : St) (id : Nat) (f : Booking → Booking) (b : Booking)
    (h : getBooking s id = some b) :
    updateBookingRow s id f = some (f b, { s with
      bookings := s.bookings.map fun x => if x.id = id then f x else x }) := by
  unfold updateBookingRow
  rw [h]

/-- Looking an equipment row up after mapping the availability update over
the table finds the updated row. -/
theorem getEquipment_map_avail (l : List Equip) (id : Nat) (bo : Bool) :
    (l.map fun x => if x.id = id then { x with availability := bo } else x).find?
        (fun e => decide (e.id = id)) =
      (l.find? fun e => decide (e.id = id)).map
        (fun x => { x with availability := bo }) := by
  rw [List.find?_map]
  have hpf : ((fun e : Equip => decide (e.id = id)) ∘
      fun x => if x.id = id then { x with availability := bo } else x) =
      fun e : Equip => decide (e.id = id) := by
    funext x
    by_cases hx : x.id = id <;> simp [hx]
  rw [hpf]
  cases hf : l.find? fun e => decide (e.id = id) with
  | none => rfl
  | some y =>
    have hy := List.find?_some hf
    simp only [decide_eq_true_eq] at hy
    simp [hy]

/-- Looking a booking row up after mapping an id-preserving row update over
the table finds the (conditionally) updated row. -/
theorem getBooking_map_update (l : List Booking) (id : Nat) (f : Booking → Booking)
    (hid : ∀ b, (f b).id = b.id) :
    (l.map fun x => if x.id = id then f x else x).find? (fun b => decide (b.id = id)) =
      (l.find? fun b => decide (b.id = id)).map
        (fun x => if x.id = id then f x else x) := by
  rw [List.find?_map]
  have hpf : ((fun b : Booking => decide (b.id = id)) ∘
      fun x => if x.id = id then f x else x) =
      fun b : Booking => decide (b.id = id) := by
    funext x
    by_cases hx : x.id = id <;> simp [hx, hid]
  rw [hpf]

/-- Finding a freshly appended booking row: every earlier row has a
different id, so the lookup returns the new row. -/
theorem find?_append_fresh (l : List Booking) (bk : Booking) (id : Nat)
    (hbk : bk.id = id) (h : ∀ x ∈ l, x.id ≠ id) :
    (l ++ [bk]).find? (fun b => decide (b.id = id)) = some bk := by
  rw [List.find?_append]
  have h1 : l.find? (fun b => decide (b.id = id)) = none := by
    rw [List.find?_eq_none]
    intro a ha
    simp [h a ha]
  rw [h1]
  simp [List.find?, hbk]

/-- `createPaymentSession` with a failing gateway always throws, whatever
the amount. -/
theorem createPaymentSession_fail (o : String) (a : Int) :
    createPaymentSession false o a = none := by
  unfold createPaymentSession
  split
  · rfl
  · rfl

/-- The revert path of booking creation: with the equipment and booking
rows present, it answers `paymentSetupFailed`, sets the equipment's
availability flag to `true`, and marks the booking row `payment_failed`. -/
theorem bookingPaymentCatch_spec (s : St) (eqId bid : Nat) (e : Equip) (bk : Booking)
    (he : getEquipment s eqId = some e) (hb : getBooking s bid = some bk) :
    bookingPaymentCatch s eqId bid =
      (.paymentSetupFailed, { s with
        equipments := s.equipments.map fun x =>
          if x.id = eqId then { x with availability := true } else x,
        bookings := s.bookings.map fun x =>
          if x.id = bid then { x with status := .payment_failed } else x }) := by
  unfold bookingPaymentCatch
  rw [updAvail_of_get s eqId true e he]
  dsimp only
  rw [updRow_of_get _ _ _ bk]
  exact hb

/-- **C8 witness**: the theorem instantiated with the concrete hash, a
tampered signature string, and the concrete state. -/
theorem C8_invalid_signature_rejected_without_mutation_witness :
    toyHmac "sec" ("order_1" ++ "|" ++ "pay_1") ≠ "bad" ∧
    (verifyPaymentSignature toyHmac "sec" "order_1" "pay_1" "bad" = false ∧
     (verifyPaymentOp toyHmac "sec" s0
        { bookingId := 1, orderId := "order_1", paymentId := "pay_1",
          signature := "bad" } 0).2 = s0 ∧
     (verifyPaymentOp toyHmac "sec" s0
        { bookingId := 1, orderId := "order_1", paymentId := "pay_1",
          signature := "bad" } 0).1.isVerified = false) :=
  ⟨by decide, C8_invalid_signature_rejected_without_mutation toyHmac "sec" s0
    { bookingId := 1, orderId := "order_1", paymentId := "pay_1", signature := "bad" }
    0 (by decide)⟩

/-- **C7**: when every pre-check passes but gateway session creation fails
during booking creation (after the equipment lock was taken), the operation
recovers: it answers the payment-setup error, the equipment's availability
flag ends at `true`, and the freshly created booking row ends in
`payment_failed`.  The freshness hypothesis says no stored row already
carries the next serial id. -/
theorem C7_gateway_failure_reverts_lock (s : St) (req : BookingReq) (o : String)
    (sd ed : Int) (e : Equip)
    (hsd : req.startDate = some sd) (hed : req.endDate = some ed)
    (he : getEquipment s req.equipmentId = some e)
    (hchk : checkEquipmentAvailability s req.equipmentId (some sd) (some ed) = true)
    (hfresh : ∀ b ∈ s.bookings, b.id ≠ s.nextBookingId) :
    (createBookingOp s req false o).1 = .paymentSetupFailed ∧
    (∃ e2, getEquipment (createBookingOp s req false o).2 req.equipmentId = some e2 ∧
        e2.availability = true) ∧
    (∃ b2, getBooking (createBookingOp s req false o).2 s.nextBookingId = some b2 ∧
        b2.status = .payment_failed ∧ b2.startDate = sd ∧ b2.endDate = ed) := by
  have hava : e.availability = true := by
    cases hav2 : e.availability with
    | true => rfl
    | false =>
      unfold checkEquipmentAvailability at hchk
      rw [he] at hchk
      dsimp only at hchk
      rw [hav2] at hchk
      simp at hchk
  unfold createBookingOp
  rw [hsd, hed, he]
  dsimp only
  simp only [hava, Bool.not_true, Bool.false_eq_true, if_false, hchk]
  rw [updAvail_of_get (insertBooking s
      { id := s.nextBookingId, equipmentId := req.equipmentId, userId := req.userId,
        startDate := sd, endDate := ed,
        totalPrice := e.dailyRate * max 1 (ceilOfDiv (ed - sd) msPerDay + 1),
        status := .pending, razorpayOrderId := none, razorpayPaymentId := none })
    req.equipmentId false e he]
  dsimp only
  rw [createPaymentSession_fail]
  rw [bookingPaymentCatch_spec _ req.equipmentId s.nextBookingId
    { e with availability := false }
    { id := s.nextBookingId, equipmentId := req.equipmentId, userId := req.userId,
      startDate := sd, endDate := ed,
      totalPrice := e.dailyRate * max 1 (ceilOfDiv (ed - sd) msPerDay + 1),
      status := .pending, razorpayOrderId := none, razorpayPaymentId := none }
    ?hge2 ?hgb2]
  case hge2 =>
    show (s.equipments.map _).find? _ = _
    rw [getEquipment_map_avail]
    rw [show s.equipments.find? (fun x => decide (x.id = req.equipmentId)) = some e from he]
    rfl
  case hgb2 =>
    show ((s.bookings ++ [_]).find? _) = _
    exact find?_append_fresh _ _ _ rfl hfresh
  refine ⟨rfl, ⟨{ e with availability := true }, ?_, rfl⟩,
    ⟨{ id := s.nextBookingId, equipmentId := req.equipmentId, userId := req.userId,
       startDate := sd, endDate := ed,
       totalPrice := e.dailyRate * max 1 (ceilOfDiv (ed - sd) msPerDay + 1),
       status := .payment_failed, razorpayOrderId := none, razorpayPaymentId := none },
      ?_, rfl, rfl, rfl⟩⟩
  · show ((s.equipments.map _).map _).find? _ = _
    rw [getEquipment_map_avail, getEquipment_map_avail]
    rw [show s.equipments.find? (fun x => decide (x.id = req.equipmentId)) = some e from he]
    rfl
  · show (((s.bookings ++ [_]).map _).find? _) = _
    rw [getBooking_map_update _ _
      (fun x => { x with status := BStatus.payment_failed }) (fun b => rfl)]
    rw [find?_append_fresh _ _ s.nextBookingId]
    · simp
    · rfl
    · exact hfresh

/-- **C7 witness**: the recovery theorem instantiated at the concrete state
`s0` with a failing gateway, all hypotheses discharged. -/
theorem C7_gateway_failure_reverts_lock_witness :
    getEquipment s0 1 =
      some { id := 1, ownerId := 9, name := "Tractor", dailyRate := 500,
             availability := true } ∧
    checkEquipmentAvailability s0 1 (some (dms 10)) (some (dms 12)) = true ∧
    ((createBookingOp s0 reqDays10to12 false "o").1 = .paymentSetupFailed ∧
     (∃ e2, getEquipment (createBookingOp s0 reqDays10to12 false "o").2 1 = some e2 ∧
         e2.availability = true) ∧
     (∃ b2, getBooking (createBookingOp s0 reqDays10to12 false "o").2 1 = some b2 ∧
         b2.status = .payment_failed ∧ b2.startDate = dms 10 ∧ b2.endDate = dms 12)) :=
  ⟨by decide, by decide,
    C7_gateway_failure_reverts_lock s0 reqDays10to12 "o" (dms 10) (dms 12)
      { id := 1, ownerId := 9, name := "Tractor", dailyRate := 500, availability := true }
      rfl rfl (by decide) (by decide) (by decide)⟩

/-- **C5**: when booking creation passes its checks, the booking row it
creates (under either gateway outcome) carries
`totalPrice = dailyRate * totalDays` with
`totalDays = ceil((end - start) / 1 day) + 1`, minimum 1, as the spec-side
`spec_totalDays` states; the scenario `dailyRate=500`, `start=2024-06-01`,
`end=2024-06-03`, `totalDays=3`, `totalPrice=1500` is checked in the
witness. -/
theorem C5_total_price_formula (s : St) (req : BookingReq) (g : Bool) (o : String)
    (sd ed : Int) (e : Equip)
    (hsd : req.startDate = some sd) (hed : req.endDate = some ed)
    (he : getEquipment s req.equipmentId = some e)
    (hchk : checkEquipmentAvailability s req.equipmentId (some sd) (some ed) = true)
    (hfresh : ∀ b ∈ s.bookings, b.id ≠ s.nextBookingId) :
    ∃ b2, getBooking (createBookingOp s req g o).2 s.nextBookingId = some b2 ∧
      b2.totalPrice = e.dailyRate * spec_totalDays sd ed ∧
      b2.startDate = sd ∧ b2.endDate = ed := by
  have hava : e.availability = true := by
    cases hav2 : e.availability with
    | true => rfl
    | false =>
      unfold checkEquipmentAvailability at hchk
      rw [he] at hchk
      dsimp only at hchk
      rw [hav2] at hchk
      simp at hchk
  unfold createBookingOp
  rw [hsd, hed, he]
  dsimp only
  simp only [hava, Bool.not_true, Bool.false_eq_true, if_false, hchk]
  rw [updAvail_of_get (insertBooking s
      { id := s.nextBookingId, equipmentId := req.equipmentId, userId := req.userId,
        startDate := sd, endDate := ed,
        totalPrice := e.dailyRate * max 1 (ceilOfDiv (ed - sd) msPerDay + 1),
        status := .pending, razorpayOrderId := none, razorpayPaymentId := none })
    req.equipmentId false e he]
  dsimp only
  cases hcp : createPaymentSession g o
      (e.dailyRate * max 1 (ceilOfDiv (ed - sd) msPerDay + 1) * 100) with
  | none =>
    rw [bookingPaymentCatch_spec _ req.equipmentId s.nextBookingId
      { e with availability := false }
      { id := s.nextBookingId, equipmentId := req.equipmentId, userId := req.userId,
        startDate := sd, endDate := ed,
        totalPrice := e.dailyRate * max 1 (ceilOfDiv (ed - sd) msPerDay + 1),
        status := .pending, razorpayOrderId := none, razorpayPaymentId := none }
      ?hge2 ?hgb2]
    case hge2 =>
      show (s.equipments.map _).find? _ = _
      rw [getEquipment_map_avail]
      rw [show s.equipments.find? (fun x => decide (x.id = req.equipmentId)) = some e from he]
      rfl
    case hgb2 =>
      show ((s.bookings ++ [_]).find? _) = _
      exact find?_append_fresh _ _ _ rfl hfresh
    refine ⟨{ id := s.nextBookingId, equipmentId := req.equipmentId,
              userId := req.userId, startDate := sd, endDate := ed,
              totalPrice := e.dailyRate * max 1 (ceilOfDiv (ed - sd) msPerDay + 1),
              status := .payment_failed, razorpayOrderId := none,
              razorpayPaymentId := none }, ?_, rfl, rfl, rfl⟩
    show (((s.bookings ++ [_]).map _).find? _) = _
    rw [getBooking_map_update _ _
      (fun x => { x with status := BStatus.payment_failed }) (fun b => rfl)]
    rw [find?_append_fresh _ _ s.nextBookingId]
    · simp
    · rfl
    · exact hfresh
  | some oid =>
    dsimp only
    rw [updRow_of_get _ s.nextBookingId _
      { id := s.nextBookingId, equipmentId := req.equipmentId, userId := req.userId,
        startDate := sd, endDate := ed,
        totalPrice := e.dailyRate * max 1 (ceilOfDiv (ed - sd) msPerDay + 1),
        status := .pending, razorpayOrderId := none, razorpayPaymentId := none }
      ?hgb3]
    case hgb3 =>
      show ((s.bookings ++ [_]).find? _) = _
      exact find?_append_fresh _ _ _ rfl hfresh
    dsimp only
    refine ⟨{ id := s.nextBookingId, equipmentId := req.equipmentId,
              userId := req.userId, startDate := sd, endDate := ed,
              totalPrice := e.dailyRate * max 1 (ceilOfDiv (ed - sd) msPerDay + 1),
              status := .awaiting_payment, razorpayOrderId := some oid,
              razorpayPaymentId := none }, ?_, rfl, rfl, rfl⟩
    show (((s.bookings ++ [_]).map _).find? _) = _
    rw [getBooking_map_update _ _
      (fun x => { x with status := BStatus.awaiting_payment, razorpayOrderId := some oid })
      (fun b => rfl)]
    rw [find?_append_fresh _ _ s.nextBookingId]
    · simp
    · rfl
    · exact hfresh

/-- **C5 witness**: the pricing theorem instantiated at the spec's scenario:
daily rate 500, 2024-06-01 through 2024-06-03, giving `totalDays = 3` and
`totalPrice = 1500`. -/
theorem C5_total_price_formula_witness :
    getEquipment s0 1 =
      some { id := 1, ownerId := 9, name := "Tractor", dailyRate := 500,
             availability := true } ∧
    checkEquipmentAvailability s0 1 (some 1717200000000) (some 1717372800000) = true ∧
    spec_totalDays 1717200000000 1717372800000 = 3 ∧
    (500 : Int) * spec_totalDays 1717200000000 1717372800000 = 1500 ∧
    (∃ b2, getBooking (createBookingOp s0 scenarioReq true "ord").2 1 = some b2 ∧
        b2.totalPrice = 500 * spec_totalDays 1717200000000 1717372800000 ∧
        b2.startDate = 1717200000000 ∧ b2.endDate = 1717372800000) :=
  ⟨by decide, by decide, by decide, by decide,
    C5_total_price_formula s0 scenarioReq true "ord" 1717200000000 1717372800000
      { id := 1, ownerId := 9, name := "Tractor", dailyRate := 500, availability := true }
      rfl rfl (by decide) (by decide) (by decide)⟩

/-- **C9 amended**: after the signature gate, the webhook endpoint answers
either the `{received: true}` acknowledgement or the 400 `Webhook Error` —
recognized-but-ignored events and successfully processed events are
acknowledged, while unparseable bodies, events without `payload.payment`,
and failed processing return the error (not an acknowledgement, contrary to
the original claim); a wrong signature is rejected. -/
theorem C9_webhook_ack_policy (hm : String → String → String) (secret sig : String)
    (fp : String → Option PayRecord) (raw : RawBody) (s : St) (now : Int) :
    (∀ p, raw.parsed = some (some p) → p.status ≠ "captured" → p.status ≠ "failed" →
      webhookProcess fp raw s now = (.received, s)) ∧
    (raw.parsed = none → webhookProcess fp raw s now = (.webhookError, s)) ∧
    (raw.parsed = some none → webhookProcess fp raw s now = (.webhookError, s)) ∧
    ((webhookProcess fp raw s now).1 = .received ∨
      (webhookProcess fp raw s now).1 = .webhookError) ∧
    (hm secret raw.text ≠ sig →
      webhookOp hm (some secret) (some sig) raw fp s now = (.invalidSignature, s)) := by
  refine ⟨?_, ?_, ?_, ?_, ?_⟩
  · intro p hp hc hf
    unfold webhookProcess
    rw [hp]
    dsimp only
    unfold handleWebhookEvent
    dsimp only
    rw [if_neg hc, if_neg hf]
  · intro hp
    unfold webhookProcess
    rw [hp]
  · intro hp
    unfold webhookProcess
    rw [hp]
    rfl
  · unfold webhookProcess
    repeat' split
    all_goals simp
  · intro hsig
    unfold webhookOp
    dsimp only
    have hcond : (!decide (hm secret raw.text = sig)) = true := by simp [hsig]
    rw [if_pos hcond]

/-- **C9 witness**: the acknowledgement conjunct instantiated at a parsed
event with the unrecognized status `authorized`. -/
theorem C9_webhook_ack_policy_witness :
    rawUnrecognized.parsed =
      some (some { status := "authorized", order_id := 1, id := "p" }) ∧
    ("authorized" : String) ≠ "captured" ∧ ("authorized" : String) ≠ "failed" ∧
    webhookProcess fpNone rawUnrecognized s0 0 = (.received, s0) :=
  ⟨rfl, by decide, by decide,
    (C9_webhook_ack_policy toyHmac "wh" "x" fpNone rawUnrecognized s0 0).1
      { status := "authorized", order_id := 1, id := "p" } rfl (by decide) (by decide)⟩

/-- **C10**: for a booking with no stored receipt, the per-booking receipt
endpoint lazily creates one when the booking is `paid` — persisting a
brand-new receipt with `amount = totalPrice * 100`, the supplied generation
time, and freshly snapshotted metadata, and returning it — and answers
not-found for every other status, mutating nothing. -/
theorem C10_lazy_receipt_creation (s : St) (requesterId bookingId : Nat) (now : Int)
    (booking : Booking)
    (hb : getBooking s bookingId = some booking)
    (hr : getReceiptByBookingId s bookingId = none) :
    (booking.status = .paid →
      ∃ r, getBookingReceiptOp s requesterId bookingId now =
          (.found r, { s with receipts := s.receipts ++ [r],
                              nextReceiptId := s.nextReceiptId + 1 }) ∧
        r.amount = booking.totalPrice * 100 ∧ r.generatedAt = now ∧
        r.bookingId = booking.id ∧ r.userId = booking.userId ∧ r.status = "paid" ∧
        r.metadata.booking_start = some booking.startDate ∧
        r.metadata.booking_end = some booking.endDate ∧
        r.metadata.equipment_name = (getEquipment s booking.equipmentId).map Equip.name) ∧
    (booking.status ≠ .paid →
      getBookingReceiptOp s requesterId bookingId now = (.receiptNotFound, s)) := by
  unfold getBookingReceiptOp
  rw [hb]
  dsimp only
  rw [hr]
  dsimp only
  constructor
  · intro hp
    rw [if_pos hp]
    exact ⟨_, rfl, rfl, rfl, rfl, rfl, rfl, rfl, rfl, rfl⟩
  · intro hnp
    rw [if_neg hnp]

/-- **C10 witness**: the lazy-creation branch instantiated at the concrete
state with a paid booking and no stored receipt. -/
theorem C10_lazy_receipt_creation_witness :
    getBooking sPaid 1 = some bookingPaid ∧
    getReceiptByBookingId sPaid 1 = none ∧
    bookingPaid.status = BStatus.paid ∧
    (∃ r, getBookingReceiptOp sPaid 7 1 99 =
        (.found r, { sPaid with receipts := sPaid.receipts ++ [r],
                                nextReceiptId := sPaid.nextReceiptId + 1 }) ∧
      r.amount = bookingPaid.totalPrice * 100 ∧ r.generatedAt = 99 ∧
      r.bookingId = bookingPaid.id ∧ r.userId = bookingPaid.userId ∧
      r.status = "paid" ∧
      r.metadata.booking_start = some bookingPaid.startDate ∧
      r.metadata.booking_end = some bookingPaid.endDate ∧
      r.metadata.equipment_name =
        (getEquipment sPaid bookingPaid.equipmentId).map Equip.name) :=
  ⟨by decide, by decide, rfl,
    (C10_lazy_receipt_creation sPaid 7 1 99 bookingPaid (by decide) (by decide)).1 rfl⟩

end FarmWeb
